import Mathlib

/-!
Verification of the payattn escrow program
(src/solana/payattn_escrow/programs/payattn_escrow/src/lib.rs).

The program is a state machine over one escrow record per offer: an
advertiser locks `amount` lamports; a user, a publisher and a platform are
later paid 70/25/5 percent shares of `amount - RENT_RESERVE` by three
independent settlement instructions; after 14 days the advertiser may
reclaim the remaining balance.

The embedding below translates the Rust handlers into pure Lean functions.
Machine integers: `u64` values are `Nat` together with an explicit
`U64_LIMIT = 2 ^ 64` bound where overflow matters; `i64` timestamps are
`Int` (the trusted clock and `created_at` stay far below the i64 range, so
the single i64 addition `created_at + ESCROW_EXPIRY_DURATION` is modelled
exactly). `checked_sub` / `checked_mul` / `checked_div` return `Option`
exactly as in Rust. The manual lamport adjustments
(`try_borrow_mut_lamports` with the compound assignment operators) are
unchecked u64 arithmetic in the source, hence modelled as wrapping
arithmetic modulo `U64_LIMIT`. Fallible handlers return
`Except EscrowError`; an error models the transaction aborting with the
record unchanged.

Account identities (Pubkey) are abstracted as `Nat`: the program only
compares them for equality and hands them to the transfer primitive.
-/

namespace Payattn

set_option maxRecDepth 2048

abbrev Pubkey := Nat

/-- The u64 overflow bound. -/
def U64_LIMIT : Nat := 2 ^ 64

/-- Duration in seconds before an escrow can be refunded (14 days). -/
def ESCROW_EXPIRY_DURATION : Int := 14 * 24 * 60 * 60

/-- Revenue split: 70 percent to the user. -/
def USER_PERCENTAGE : Nat := 70

/-- Revenue split: 25 percent to the publisher. -/
def PUBLISHER_PERCENTAGE : Nat := 25

/-- Minimum balance retained in the escrow account (5000 lamports). -/
def RENT_RESERVE : Nat := 5000

/-- The error codes of the program. -/
inductive EscrowError where
  | AlreadySettled
  | EscrowExpired
  | NotExpired
  | Unauthorized
  | InvalidAmount
  | OfferIdTooLong
  | MathOverflow
  deriving DecidableEq, Repr

/-- The persisted escrow record (struct Escrow in the source; the `bump`
derivation nonce is plumbing for address derivation and not modelled). -/
structure Escrow where
  offer_id : String
  advertiser : Pubkey
  user : Pubkey
  platform : Pubkey
  amount : Nat
  created_at : Int
  user_settled : Bool
  publisher_settled : Bool
  platform_settled : Bool
  deriving DecidableEq, Repr

deriving instance DecidableEq for Except

/-- Rust `u64::checked_sub`. -/
def checked_sub (a b : Nat) : Option Nat :=
  if b ≤ a then some (a - b) else none

/-- Rust `u64::checked_mul`. -/
def checked_mul (a b : Nat) : Option Nat :=
  if a * b < U64_LIMIT then some (a * b) else none

/-- Rust `u64::checked_div`. -/
def checked_div (a b : Nat) : Option Nat :=
  if b = 0 then none else some (a / b)

/-- Unchecked u64 subtraction: the compound subtraction on lamports in the
settlement handlers wraps modulo 2 ^ 64 (release-profile semantics). -/
def wrapping_sub (a b : Nat) : Nat :=
  (a + (U64_LIMIT - b % U64_LIMIT)) % U64_LIMIT

/-- Unchecked u64 addition on lamports. -/
def wrapping_add (a b : Nat) : Nat :=
  (a + b) % U64_LIMIT

/-- Rust `Option::ok_or` followed by `?`. -/
def lift_ok_or {α : Type} (o : Option α) (e : EscrowError) : Except EscrowError α :=
  match o with
  | some a => .ok a
  | none => .error e

/-- `create_escrow`: validates the amount and the offer id and initialises
the record; the runtime then moves `amount` lamports into the record. -/
def create_escrow (offer_id : String) (amount : Nat)
    (advertiser user platform : Pubkey) (now : Int) : Except EscrowError Escrow :=
  if ¬ (amount > RENT_RESERVE) then .error .InvalidAmount
  else if ¬ (offer_id.utf8ByteSize ≤ 64) then .error .OfferIdTooLong
  else .ok { offer_id := offer_id, advertiser := advertiser, user := user,
             platform := platform, amount := amount, created_at := now,
             user_settled := false, publisher_settled := false,
             platform_settled := false }

/-- The user payout computation of `settle_user`:
`amount.checked_sub(RENT_RESERVE).ok_or(MathOverflow)?`
`.checked_mul(USER_PERCENTAGE).and_then(checked_div 100).ok_or(MathOverflow)?`. -/
def user_amount (amount : Nat) : Except EscrowError Nat :=
  match checked_sub amount RENT_RESERVE with
  | none => .error .MathOverflow
  | some base =>
    match (checked_mul base USER_PERCENTAGE).bind (fun v => checked_div v 100) with
    | none => .error .MathOverflow
    | some v => .ok v

/-- The publisher payout computation of `settle_publisher`. -/
def publisher_amount (amount : Nat) : Except EscrowError Nat :=
  match checked_sub amount RENT_RESERVE with
  | none => .error .MathOverflow
  | some base =>
    match (checked_mul base PUBLISHER_PERCENTAGE).bind (fun v => checked_div v 100) with
    | none => .error .MathOverflow
    | some v => .ok v

/-- The platform payout computation of `settle_platform`: the remainder
`total_payable - user_amount - publisher_amount`, each step checked. -/
def platform_amount (amount : Nat) : Except EscrowError Nat :=
  match checked_sub amount RENT_RESERVE with
  | none => .error .MathOverflow
  | some total_payable =>
    match (checked_mul total_payable USER_PERCENTAGE).bind (fun v => checked_div v 100) with
    | none => .error .MathOverflow
    | some u =>
      match (checked_mul total_payable PUBLISHER_PERCENTAGE).bind (fun v => checked_div v 100) with
      | none => .error .MathOverflow
      | some p =>
        match (checked_sub total_payable u).bind (fun v => checked_sub v p) with
        | none => .error .MathOverflow
        | some q => .ok q

/-- Result of a settlement or refund handler: the updated record, the
lamport balance of the escrow account, and the lamport balance of the
account that was credited. -/
structure SettleResult where
  escrow : Escrow
  escrow_lamports : Nat
  payee_lamports : Nat
  deriving DecidableEq, Repr

/-- `settle_user`: pays the 70 percent share to the stored user. The three
`require!` guards run in source order; the lamport transfer is the
unchecked compound subtraction and addition of the source. -/
def settle_user (e : Escrow) (escrow_lamports : Nat) (user_key : Pubkey)
    (user_lamports : Nat) (now : Int) : Except EscrowError SettleResult :=
  if e.user_settled then .error .AlreadySettled
  else if ¬ (now ≤ e.created_at + ESCROW_EXPIRY_DURATION) then .error .EscrowExpired
  else if ¬ (user_key = e.user) then .error .Unauthorized
  else
    match user_amount e.amount with
    | .error err => .error err
    | .ok amt =>
      .ok { escrow := { e with user_settled := true },
            escrow_lamports := wrapping_sub escrow_lamports amt,
            payee_lamports := wrapping_add user_lamports amt }

/-- `settle_publisher`: pays the 25 percent share to whatever publisher
account the caller supplied; there is no identity guard. -/
def settle_publisher (e : Escrow) (escrow_lamports : Nat) (publisher_key : Pubkey)
    (publisher_lamports : Nat) (now : Int) : Except EscrowError SettleResult :=
  if e.publisher_settled then .error .AlreadySettled
  else if ¬ (now ≤ e.created_at + ESCROW_EXPIRY_DURATION) then .error .EscrowExpired
  else
    match publisher_amount e.amount with
    | .error err => .error err
    | .ok amt =>
      .ok { escrow := { e with publisher_settled := true },
            escrow_lamports := wrapping_sub escrow_lamports amt,
            payee_lamports := wrapping_add publisher_lamports amt }

/-- `settle_platform`: pays the remainder share to the stored platform. -/
def settle_platform (e : Escrow) (escrow_lamports : Nat) (platform_key : Pubkey)
    (platform_lamports : Nat) (now : Int) : Except EscrowError SettleResult :=
  if e.platform_settled then .error .AlreadySettled
  else if ¬ (now ≤ e.created_at + ESCROW_EXPIRY_DURATION) then .error .EscrowExpired
  else if ¬ (platform_key = e.platform) then .error .Unauthorized
  else
    match platform_amount e.amount with
    | .error err => .error err
    | .ok amt =>
      .ok { escrow := { e with platform_settled := true },
            escrow_lamports := wrapping_sub escrow_lamports amt,
            payee_lamports := wrapping_add platform_lamports amt }

/-- `refund_escrow`: after expiry and if not fully settled, returns the
current balance above the reserve to the advertiser and force-sets all
three flags. The transfer runs through the system program (which moves
exactly `refund_amount ≤ escrow_lamports`), guarded by
`if refund_amount > 0`, which is observationally the identity when the
amount is zero. -/
def refund_escrow (e : Escrow) (escrow_lamports : Nat) (advertiser_key : Pubkey)
    (advertiser_lamports : Nat) (now : Int) : Except EscrowError SettleResult :=
  if e.user_settled && e.publisher_settled && e.platform_settled then
    .error .AlreadySettled
  else if ¬ (now > e.created_at + ESCROW_EXPIRY_DURATION) then .error .NotExpired
  else if ¬ (advertiser_key = e.advertiser) then .error .Unauthorized
  else
    match checked_sub escrow_lamports RENT_RESERVE with
    | none => .error .MathOverflow
    | some refund_amount =>
      .ok { escrow := { e with user_settled := true, publisher_settled := true,
                               platform_settled := true },
            escrow_lamports := escrow_lamports - refund_amount,
            payee_lamports := advertiser_lamports + refund_amount }

/-! ### Share values and arithmetic lemmas -/

/-- The user share of an escrow of amount `A`: 70 percent of the payable
base, rounded down. -/
def user_share (A : Nat) : Nat := (A - RENT_RESERVE) * USER_PERCENTAGE / 100

/-- The publisher share: 25 percent of the payable base, rounded down. -/
def publisher_share (A : Nat) : Nat := (A - RENT_RESERVE) * PUBLISHER_PERCENTAGE / 100

/-- The platform share: the remainder of the payable base. -/
def platform_share (A : Nat) : Nat := (A - RENT_RESERVE) - user_share A - publisher_share A

theorem user_publisher_share_le (A : Nat) :
    user_share A + publisher_share A ≤ A - RENT_RESERVE := by
  unfold user_share publisher_share USER_PERCENTAGE PUBLISHER_PERCENTAGE
  have h1 := Nat.div_mul_le_self ((A - RENT_RESERVE) * 70) 100
  have h2 := Nat.div_mul_le_self ((A - RENT_RESERVE) * 25) 100
  omega

theorem shares_sum (A : Nat) :
    user_share A + publisher_share A + platform_share A = A - RENT_RESERVE := by
  have h := user_publisher_share_le A
  unfold platform_share
  omega

theorem user_amount_eval (A : Nat) (hA : RENT_RESERVE ≤ A)
    (hov : (A - RENT_RESERVE) * USER_PERCENTAGE < U64_LIMIT) :
    user_amount A = .ok (user_share A) := by
  unfold user_amount checked_sub checked_mul checked_div user_share
  simp [hA, hov, Option.bind]

theorem user_amount_overflow (A : Nat) (hA : RENT_RESERVE ≤ A)
    (hov : ¬ (A - RENT_RESERVE) * USER_PERCENTAGE < U64_LIMIT) :
    user_amount A = .error .MathOverflow := by
  unfold user_amount checked_sub checked_mul checked_div
  simp [hA, hov, Option.bind]

theorem publisher_amount_eval (A : Nat) (hA : RENT_RESERVE ≤ A)
    (hov : (A - RENT_RESERVE) * PUBLISHER_PERCENTAGE < U64_LIMIT) :
    publisher_amount A = .ok (publisher_share A) := by
  unfold publisher_amount checked_sub checked_mul checked_div publisher_share
  simp [hA, hov, Option.bind]

theorem publisher_amount_overflow (A : Nat) (hA : RENT_RESERVE ≤ A)
    (hov : ¬ (A - RENT_RESERVE) * PUBLISHER_PERCENTAGE < U64_LIMIT) :
    publisher_amount A = .error .MathOverflow := by
  unfold publisher_amount checked_sub checked_mul checked_div
  simp [hA, hov, Option.bind]

theorem platform_amount_eval (A : Nat) (hA : RENT_RESERVE ≤ A)
    (hov : (A - RENT_RESERVE) * USER_PERCENTAGE < U64_LIMIT) :
    platform_amount A = .ok (platform_share A) := by
  have hov25 : (A - RENT_RESERVE) * PUBLISHER_PERCENTAGE < U64_LIMIT := by
    have : (A - RENT_RESERVE) * PUBLISHER_PERCENTAGE ≤ (A - RENT_RESERVE) * USER_PERCENTAGE :=
      Nat.mul_le_mul_left _ (by norm_num [PUBLISHER_PERCENTAGE, USER_PERCENTAGE])
    omega
  have hle := user_publisher_share_le A
  unfold platform_amount checked_sub checked_mul checked_div
  simp only [hA, if_true, hov, hov25, Option.bind]
  unfold platform_share user_share publisher_share at *
  have hu : (A - RENT_RESERVE) * USER_PERCENTAGE / 100 ≤ A - RENT_RESERVE := by omega
  have hp : (A - RENT_RESERVE) * PUBLISHER_PERCENTAGE / 100 ≤
      A - RENT_RESERVE - (A - RENT_RESERVE) * USER_PERCENTAGE / 100 := by omega
  simp [hov, hov25, hu, hp]

theorem platform_amount_overflow (A : Nat) (hA : RENT_RESERVE ≤ A)
    (hov : ¬ (A - RENT_RESERVE) * USER_PERCENTAGE < U64_LIMIT) :
    platform_amount A = .error .MathOverflow := by
  unfold platform_amount checked_sub checked_mul checked_div
  simp [hA, hov, Option.bind]

theorem wrapping_sub_exact (a b : Nat) (hba : b ≤ a) (ha : a < U64_LIMIT) :
    wrapping_sub a b = a - b := by
  unfold wrapping_sub U64_LIMIT at *
  have hb : b % 2 ^ 64 = b := Nat.mod_eq_of_lt (by omega)
  rw [hb]
  have : a + (2 ^ 64 - b) = (a - b) + 2 ^ 64 := by omega
  rw [this, Nat.add_mod_right]
  exact Nat.mod_eq_of_lt (by omega)

theorem wrapping_add_exact (a b : Nat) (h : a + b < U64_LIMIT) :
    wrapping_add a b = a + b := by
  unfold wrapping_add U64_LIMIT at *
  exact Nat.mod_eq_of_lt h

/-! ### Inversion lemmas for the handlers -/

theorem settle_user_ok_inv (e : Escrow) (bal key pbal : Nat) (now : Int)
    (r : SettleResult) (h : settle_user e bal key pbal now = .ok r) :
    e.user_settled = false ∧ now ≤ e.created_at + ESCROW_EXPIRY_DURATION ∧
    key = e.user ∧ ∃ amt, user_amount e.amount = .ok amt ∧
      r = { escrow := { e with user_settled := true },
            escrow_lamports := wrapping_sub bal amt,
            payee_lamports := wrapping_add pbal amt } := by
  unfold settle_user at h
  split at h
  · exact absurd h (by simp)
  next hflag =>
    split at h
    · exact absurd h (by simp)
    next htime =>
      split at h
      · exact absurd h (by simp)
      next hkey =>
        split at h
        · exact absurd h (by simp)
        next amt heq =>
          refine ⟨by simpa using hflag, by simpa using htime, by simpa using hkey,
            amt, heq, ?_⟩
          cases h
          rfl

theorem settle_publisher_ok_inv (e : Escrow) (bal key pbal : Nat) (now : Int)
    (r : SettleResult) (h : settle_publisher e bal key pbal now = .ok r) :
    e.publisher_settled = false ∧ now ≤ e.created_at + ESCROW_EXPIRY_DURATION ∧
    ∃ amt, publisher_amount e.amount = .ok amt ∧
      r = { escrow := { e with publisher_settled := true },
            escrow_lamports := wrapping_sub bal amt,
            payee_lamports := wrapping_add pbal amt } := by
  unfold settle_publisher at h
  split at h
  · exact absurd h (by simp)
  next hflag =>
    split at h
    · exact absurd h (by simp)
    next htime =>
      split at h
      · exact absurd h (by simp)
      next amt heq =>
        refine ⟨by simpa using hflag, by simpa using htime, amt, heq, ?_⟩
        cases h
        rfl

theorem settle_platform_ok_inv (e : Escrow) (bal key pbal : Nat) (now : Int)
    (r : SettleResult) (h : settle_platform e bal key pbal now = .ok r) :
    e.platform_settled = false ∧ now ≤ e.created_at + ESCROW_EXPIRY_DURATION ∧
    key = e.platform ∧ ∃ amt, platform_amount e.amount = .ok amt ∧
      r = { escrow := { e with platform_settled := true },
            escrow_lamports := wrapping_sub bal amt,
            payee_lamports := wrapping_add pbal amt } := by
  unfold settle_platform at h
  split at h
  · exact absurd h (by simp)
  next hflag =>
    split at h
    · exact absurd h (by simp)
    next htime =>
      split at h
      · exact absurd h (by simp)
      next hkey =>
        split at h
        · exact absurd h (by simp)
        next amt heq =>
          refine ⟨by simpa using hflag, by simpa using htime, by simpa using hkey,
            amt, heq, ?_⟩
          cases h
          rfl

theorem refund_escrow_ok_inv (e : Escrow) (bal key abal : Nat) (now : Int)
    (r : SettleResult) (h : refund_escrow e bal key abal now = .ok r) :
    ¬ (e.user_settled = true ∧ e.publisher_settled = true ∧ e.platform_settled = true) ∧
    now > e.created_at + ESCROW_EXPIRY_DURATION ∧ key = e.advertiser ∧
    RENT_RESERVE ≤ bal ∧
    r = { escrow := { e with user_settled := true, publisher_settled := true,
                             platform_settled := true },
          escrow_lamports := bal - (bal - RENT_RESERVE),
          payee_lamports := abal + (bal - RENT_RESERVE) } := by
  unfold refund_escrow at h
  split at h
  · exact absurd h (by simp)
  next hflag =>
    split at h
    · exact absurd h (by simp)
    next htime =>
      split at h
      · exact absurd h (by simp)
      next hkey =>
        split at h
        · exact absurd h (by simp)
        next refund_amount heq =>
          have hbal : RENT_RESERVE ≤ bal ∧ refund_amount = bal - RENT_RESERVE := by
            unfold checked_sub at heq
            split at heq
            next hc => exact ⟨hc, by simpa using heq.symm⟩
            next hc => exact absurd heq (by simp)
          obtain ⟨hb1, hb2⟩ := hbal
          cases h
          refine ⟨by simpa [Bool.and_eq_true] using hflag, by simpa using htime,
            by simpa using hkey, hb1, ?_⟩
          rw [hb2]

theorem user_amount_ok_inv (A amt : Nat) (h : user_amount A = .ok amt) :
    RENT_RESERVE ≤ A ∧ (A - RENT_RESERVE) * USER_PERCENTAGE < U64_LIMIT ∧
    amt = user_share A := by
  rcases hA : decide (RENT_RESERVE ≤ A) with _ | _
  · have hA2 : ¬ RENT_RESERVE ≤ A := of_decide_eq_false hA
    unfold user_amount checked_sub at h
    rw [if_neg hA2] at h
    exact absurd h (by simp)
  · have hA2 : RENT_RESERVE ≤ A := of_decide_eq_true hA
    rcases hov : decide ((A - RENT_RESERVE) * USER_PERCENTAGE < U64_LIMIT) with _ | _
    · have hov2 := of_decide_eq_false hov
      rw [user_amount_overflow A hA2 hov2] at h
      exact absurd h (by simp)
    · have hov2 := of_decide_eq_true hov
      rw [user_amount_eval A hA2 hov2] at h
      simp only [Except.ok.injEq] at h
      exact ⟨hA2, hov2, h.symm⟩

theorem publisher_amount_ok_inv (A amt : Nat) (h : publisher_amount A = .ok amt) :
    RENT_RESERVE ≤ A ∧ (A - RENT_RESERVE) * PUBLISHER_PERCENTAGE < U64_LIMIT ∧
    amt = publisher_share A := by
  rcases hA : decide (RENT_RESERVE ≤ A) with _ | _
  · have hA2 : ¬ RENT_RESERVE ≤ A := of_decide_eq_false hA
    unfold publisher_amount checked_sub at h
    rw [if_neg hA2] at h
    exact absurd h (by simp)
  · have hA2 : RENT_RESERVE ≤ A := of_decide_eq_true hA
    rcases hov : decide ((A - RENT_RESERVE) * PUBLISHER_PERCENTAGE < U64_LIMIT) with _ | _
    · have hov2 := of_decide_eq_false hov
      rw [publisher_amount_overflow A hA2 hov2] at h
      exact absurd h (by simp)
    · have hov2 := of_decide_eq_true hov
      rw [publisher_amount_eval A hA2 hov2] at h
      simp only [Except.ok.injEq] at h
      exact ⟨hA2, hov2, h.symm⟩

theorem platform_amount_ok_inv (A amt : Nat) (h : platform_amount A = .ok amt) :
    RENT_RESERVE ≤ A ∧ (A - RENT_RESERVE) * USER_PERCENTAGE < U64_LIMIT ∧
    amt = platform_share A := by
  rcases hA : decide (RENT_RESERVE ≤ A) with _ | _
  · have hA2 : ¬ RENT_RESERVE ≤ A := of_decide_eq_false hA
    unfold platform_amount checked_sub at h
    rw [if_neg (by omega)] at h
    exact absurd h (by simp)
  · have hA2 : RENT_RESERVE ≤ A := of_decide_eq_true hA
    rcases hov : decide ((A - RENT_RESERVE) * USER_PERCENTAGE < U64_LIMIT) with _ | _
    · have hov2 := of_decide_eq_false hov
      rw [platform_amount_overflow A hA2 hov2] at h
      exact absurd h (by simp)
    · have hov2 := of_decide_eq_true hov
      rw [platform_amount_eval A hA2 hov2] at h
      simp only [Except.ok.injEq] at h
      exact ⟨hA2, hov2, h.symm⟩

/-! ### Reachable states and the fund-safety invariant -/

/-- The shares still owed by the record: the payable portions whose
settlement flag is still false. -/
def dues (e : Escrow) : Nat :=
  cond e.user_settled 0 (user_share e.amount) +
  cond e.publisher_settled 0 (publisher_share e.amount) +
  cond e.platform_settled 0 (platform_share e.amount)

/-- Reachable configurations of one escrow record created with amount `A`:
the record, the lamport balance of its account, the total paid out by
settlements so far, and the total refunded so far. Creation moves the
`amount` lamports (a u64 value, hence below `U64_LIMIT`) into the record.
Each later step is a successful handler call with arbitrary caller-chosen
clock and key arguments; the payee account enters with a zero balance so
that its balance after the call is exactly the amount the call credited. -/
inductive Reach (A : Nat) : Escrow → Nat → Nat → Nat → Prop where
  | created (offer_id : String) (adv usr plat : Pubkey) (now : Int) (e : Escrow)
      (hA : A < U64_LIMIT)
      (hc : create_escrow offer_id A adv usr plat now = .ok e) :
      Reach A e A 0 0
  | settledUser (e : Escrow) (bal paid ref : Nat) (key : Pubkey) (now : Int)
      (r : SettleResult) (hr : Reach A e bal paid ref)
      (hok : settle_user e bal key 0 now = .ok r) :
      Reach A r.escrow r.escrow_lamports (paid + r.payee_lamports) ref
  | settledPublisher (e : Escrow) (bal paid ref : Nat) (key : Pubkey) (now : Int)
      (r : SettleResult) (hr : Reach A e bal paid ref)
      (hok : settle_publisher e bal key 0 now = .ok r) :
      Reach A r.escrow r.escrow_lamports (paid + r.payee_lamports) ref
  | settledPlatform (e : Escrow) (bal paid ref : Nat) (key : Pubkey) (now : Int)
      (r : SettleResult) (hr : Reach A e bal paid ref)
      (hok : settle_platform e bal key 0 now = .ok r) :
      Reach A r.escrow r.escrow_lamports (paid + r.payee_lamports) ref
  | refunded (e : Escrow) (bal paid ref : Nat) (key : Pubkey) (now : Int)
      (r : SettleResult) (hr : Reach A e bal paid ref)
      (hok : refund_escrow e bal key 0 now = .ok r) :
      Reach A r.escrow r.escrow_lamports paid (ref + r.payee_lamports)

theorem reach_invariant (A : Nat) (e : Escrow) (bal paid ref : Nat)
    (h : Reach A e bal paid ref) :
    e.amount = A ∧ RENT_RESERVE < A ∧ A < U64_LIMIT ∧
    bal = RENT_RESERVE + dues e ∧ bal + paid + ref = A := by
  induction h with
  | created offer_id adv usr plat now e hA hc =>
      unfold create_escrow at hc
      split at hc
      · exact absurd hc (by simp)
      next hamt =>
        split at hc
        · exact absurd hc (by simp)
        next hlen =>
          cases hc
          have hgt : RENT_RESERVE < A := by simpa [RENT_RESERVE] using hamt
          have hs := shares_sum A
          have hd : dues { offer_id := offer_id, advertiser := adv, user := usr,
                           platform := plat, amount := A, created_at := now,
                           user_settled := false, publisher_settled := false,
                           platform_settled := false } =
              user_share A + publisher_share A + platform_share A := rfl
          exact ⟨rfl, hgt, hA, by rw [hd]; omega, by omega⟩
  | settledUser e bal paid ref key now r hr hok ih =>
      obtain ⟨hamt, hAgt, hAlt, hbal, hsum⟩ := ih
      obtain ⟨hflag, htime, hkey, amt, hup, hres⟩ :=
        settle_user_ok_inv e bal key 0 now r hok
      obtain ⟨hA5, hov, hamteq⟩ := user_amount_ok_inv e.amount amt hup
      have hdues : dues e = user_share e.amount + dues { e with user_settled := true } := by
        unfold dues
        rw [hflag]
        simp
        omega
      have hle : amt ≤ bal := by rw [hamteq]; omega
      have hblt : bal < U64_LIMIT := by omega
      subst hres
      refine ⟨hamt, hAgt, hAlt, ?_, ?_⟩
      · show wrapping_sub bal amt = RENT_RESERVE + dues { e with user_settled := true }
        rw [wrapping_sub_exact bal amt hle hblt, hamteq]
        omega
      · show wrapping_sub bal amt + (paid + wrapping_add 0 amt) + ref = A
        rw [wrapping_sub_exact bal amt hle hblt, wrapping_add_exact 0 amt (by omega)]
        omega
  | settledPublisher e bal paid ref key now r hr hok ih =>
      obtain ⟨hamt, hAgt, hAlt, hbal, hsum⟩ := ih
      obtain ⟨hflag, htime, amt, hup, hres⟩ :=
        settle_publisher_ok_inv e bal key 0 now r hok
      obtain ⟨hA5, hov, hamteq⟩ := publisher_amount_ok_inv e.amount amt hup
      have hdues : dues e =
          publisher_share e.amount + dues { e with publisher_settled := true } := by
        unfold dues
        rw [hflag]
        simp
        omega
      have hle : amt ≤ bal := by rw [hamteq]; omega
      have hblt : bal < U64_LIMIT := by omega
      subst hres
      refine ⟨hamt, hAgt, hAlt, ?_, ?_⟩
      · show wrapping_sub bal amt = RENT_RESERVE + dues { e with publisher_settled := true }
        rw [wrapping_sub_exact bal amt hle hblt, hamteq]
        omega
      · show wrapping_sub bal amt + (paid + wrapping_add 0 amt) + ref = A
        rw [wrapping_sub_exact bal amt hle hblt, wrapping_add_exact 0 amt (by omega)]
        omega
  | settledPlatform e bal paid ref key now r hr hok ih =>
      obtain ⟨hamt, hAgt, hAlt, hbal, hsum⟩ := ih
      obtain ⟨hflag, htime, hkey, amt, hup, hres⟩ :=
        settle_platform_ok_inv e bal key 0 now r hok
      obtain ⟨hA5, hov, hamteq⟩ := platform_amount_ok_inv e.amount amt hup
      have hdues : dues e =
          platform_share e.amount + dues { e with platform_settled := true } := by
        unfold dues
        rw [hflag]
        simp
        omega
      have hle : amt ≤ bal := by rw [hamteq]; omega
      have hblt : bal < U64_LIMIT := by omega
      subst hres
      refine ⟨hamt, hAgt, hAlt, ?_, ?_⟩
      · show wrapping_sub bal amt = RENT_RESERVE + dues { e with platform_settled := true }
        rw [wrapping_sub_exact bal amt hle hblt, hamteq]
        omega
      · show wrapping_sub bal amt + (paid + wrapping_add 0 amt) + ref = A
        rw [wrapping_sub_exact bal amt hle hblt, wrapping_add_exact 0 amt (by omega)]
        omega
  | refunded e bal paid ref key now r hr hok ih =>
      obtain ⟨hamt, hAgt, hAlt, hbal, hsum⟩ := ih
      obtain ⟨hflag, htime, hkey, hb, hres⟩ :=
        refund_escrow_ok_inv e bal key 0 now r hok
      subst hres
      have hd : dues
          { e with user_settled := true, publisher_settled := true,
                   platform_settled := true } = 0 := rfl
      refine ⟨hamt, hAgt, hAlt, ?_, ?_⟩
      · show bal - (bal - RENT_RESERVE) =
          RENT_RESERVE + dues
            { e with user_settled := true, publisher_settled := true,
                     platform_settled := true }
        rw [hd]
        omega
      · show bal - (bal - RENT_RESERVE) + paid + (ref + (0 + (bal - RENT_RESERVE))) = A
        omega

/-! ### Evaluation helpers for the handlers -/

theorem user_amount_cases (A : Nat) :
    (∃ v, user_amount A = .ok v) ∨ user_amount A = .error .MathOverflow := by
  unfold user_amount
  split
  · exact Or.inr rfl
  · split
    · exact Or.inr rfl
    · exact Or.inl ⟨_, rfl⟩

theorem publisher_amount_cases (A : Nat) :
    (∃ v, publisher_amount A = .ok v) ∨ publisher_amount A = .error .MathOverflow := by
  unfold publisher_amount
  split
  · exact Or.inr rfl
  · split
    · exact Or.inr rfl
    · exact Or.inl ⟨_, rfl⟩

theorem platform_amount_cases (A : Nat) :
    (∃ v, platform_amount A = .ok v) ∨ platform_amount A = .error .MathOverflow := by
  unfold platform_amount
  split
  · exact Or.inr rfl
  · split
    · exact Or.inr rfl
    · split
      · exact Or.inr rfl
      · split
        · exact Or.inr rfl
        · exact Or.inl ⟨_, rfl⟩

theorem settle_user_eval (e : Escrow) (bal key pbal : Nat) (now : Int) (v : Nat)
    (hflag : e.user_settled = false)
    (htime : now ≤ e.created_at + ESCROW_EXPIRY_DURATION)
    (hkey : key = e.user)
    (hv : user_amount e.amount = .ok v) :
    settle_user e bal key pbal now =
      .ok { escrow := { e with user_settled := true },
            escrow_lamports := wrapping_sub bal v,
            payee_lamports := wrapping_add pbal v } := by
  subst hkey
  simp [settle_user, hflag, htime, hv]

theorem settle_publisher_eval (e : Escrow) (bal key pbal : Nat) (now : Int) (v : Nat)
    (hflag : e.publisher_settled = false)
    (htime : now ≤ e.created_at + ESCROW_EXPIRY_DURATION)
    (hv : publisher_amount e.amount = .ok v) :
    settle_publisher e bal key pbal now =
      .ok { escrow := { e with publisher_settled := true },
            escrow_lamports := wrapping_sub bal v,
            payee_lamports := wrapping_add pbal v } := by
  simp [settle_publisher, hflag, htime, hv]

theorem settle_platform_eval (e : Escrow) (bal key pbal : Nat) (now : Int) (v : Nat)
    (hflag : e.platform_settled = false)
    (htime : now ≤ e.created_at + ESCROW_EXPIRY_DURATION)
    (hkey : key = e.platform)
    (hv : platform_amount e.amount = .ok v) :
    settle_platform e bal key pbal now =
      .ok { escrow := { e with platform_settled := true },
            escrow_lamports := wrapping_sub bal v,
            payee_lamports := wrapping_add pbal v } := by
  subst hkey
  simp [settle_platform, hflag, htime, hv]

theorem settle_user_amount_err (e : Escrow) (bal key pbal : Nat) (now : Int)
    (err : EscrowError)
    (hflag : e.user_settled = false)
    (htime : now ≤ e.created_at + ESCROW_EXPIRY_DURATION)
    (hkey : key = e.user)
    (hv : user_amount e.amount = .error err) :
    settle_user e bal key pbal now = .error err := by
  subst hkey
  simp [settle_user, hflag, htime, hv]

theorem settle_publisher_amount_err (e : Escrow) (bal key pbal : Nat) (now : Int)
    (err : EscrowError)
    (hflag : e.publisher_settled = false)
    (htime : now ≤ e.created_at + ESCROW_EXPIRY_DURATION)
    (hv : publisher_amount e.amount = .error err) :
    settle_publisher e bal key pbal now = .error err := by
  simp [settle_publisher, hflag, htime, hv]

theorem settle_platform_amount_err (e : Escrow) (bal key pbal : Nat) (now : Int)
    (err : EscrowError)
    (hflag : e.platform_settled = false)
    (htime : now ≤ e.created_at + ESCROW_EXPIRY_DURATION)
    (hkey : key = e.platform)
    (hv : platform_amount e.amount = .error err) :
    settle_platform e bal key pbal now = .error err := by
  subst hkey
  simp [settle_platform, hflag, htime, hv]

theorem not_fully_settled_bool (e : Escrow)
    (hflag : ¬ (e.user_settled = true ∧ e.publisher_settled = true ∧
      e.platform_settled = true)) :
    ¬ ((e.user_settled && e.publisher_settled && e.platform_settled) = true) := by
  simp only [Bool.and_eq_true]
  exact fun h => hflag ⟨h.1.1, h.1.2, h.2⟩

theorem refund_escrow_eval (e : Escrow) (bal key abal : Nat) (now : Int)
    (hflag : ¬ (e.user_settled = true ∧ e.publisher_settled = true ∧
      e.platform_settled = true))
    (hexp : now > e.created_at + ESCROW_EXPIRY_DURATION)
    (hkey : key = e.advertiser)
    (hbal : RENT_RESERVE ≤ bal) :
    refund_escrow e bal key abal now =
      .ok { escrow := { e with user_settled := true, publisher_settled := true,
                               platform_settled := true },
            escrow_lamports := RENT_RESERVE,
            payee_lamports := abal + (bal - RENT_RESERVE) } := by
  subst hkey
  have hb := not_fully_settled_bool e hflag
  have hsub : checked_sub bal RENT_RESERVE = some (bal - RENT_RESERVE) := by
    unfold checked_sub
    rw [if_pos hbal]
  have hl : bal - (bal - RENT_RESERVE) = RENT_RESERVE := by omega
  simp [refund_escrow, hb, hexp, hsub, hl]

theorem refund_escrow_balance_err (e : Escrow) (bal key abal : Nat) (now : Int)
    (hflag : ¬ (e.user_settled = true ∧ e.publisher_settled = true ∧
      e.platform_settled = true))
    (hexp : now > e.created_at + ESCROW_EXPIRY_DURATION)
    (hkey : key = e.advertiser)
    (hbal : bal < RENT_RESERVE) :
    refund_escrow e bal key abal now = .error .MathOverflow := by
  subst hkey
  have hb := not_fully_settled_bool e hflag
  have hsub : checked_sub bal RENT_RESERVE = none := by
    unfold checked_sub
    rw [if_neg (by omega)]
  simp [refund_escrow, hb, hexp, hsub]

/-! ### Concrete records used by witnesses and counterexamples -/

/-- A freshly created escrow over 10000 lamports (the worked example of the
specification: payable base 5000, shares 3500 / 1250 / 250). -/
def sampleEscrow : Escrow :=
  { offer_id := "offer-1", advertiser := 1, user := 2, platform := 3,
    amount := 10000, created_at := 0, user_settled := false,
    publisher_settled := false, platform_settled := false }

/-- A freshly created escrow holding the largest u64 amount. -/
def hugeEscrow : Escrow :=
  { offer_id := "offer-2", advertiser := 1, user := 2, platform := 3,
    amount := 18446744073709551615, created_at := 0, user_settled := false,
    publisher_settled := false, platform_settled := false }

/-- A freshly created escrow whose payable base overflows u64 when
multiplied by 70 but not when multiplied by 25. -/
def midEscrow : Escrow :=
  { offer_id := "offer-3", advertiser := 1, user := 2, platform := 3,
    amount := 300000000000005000, created_at := 0, user_settled := false,
    publisher_settled := false, platform_settled := false }

/-- A fully settled escrow record. -/
def settledEscrow : Escrow :=
  { offer_id := "offer-4", advertiser := 1, user := 2, platform := 3,
    amount := 10000, created_at := 0, user_settled := true,
    publisher_settled := true, platform_settled := true }

/-- A partially settled escrow record (only the user share paid). -/
def partialEscrow : Escrow :=
  { offer_id := "offer-5", advertiser := 1, user := 2, platform := 3,
    amount := 10000, created_at := 0, user_settled := true,
    publisher_settled := false, platform_settled := false }

/-- The result of settling the user share of `sampleEscrow` when the
escrow account holds 10000 lamports and the user account zero. -/
def sampleUserResult : SettleResult :=
  { escrow := { sampleEscrow with user_settled := true },
    escrow_lamports := 6500, payee_lamports := 3500 }

/-- The result of refunding `partialEscrow` when its account balance is
exactly the reserve: the refund amount is zero, all flags are forced. -/
def refundZeroResult : SettleResult :=
  { escrow := { partialEscrow with user_settled := true, publisher_settled := true,
                                   platform_settled := true },
    escrow_lamports := 5000, payee_lamports := 0 }

/-! ### C1: exactness of the 70/25/5 split -/

/-- C1 counterexample: the claim quantifies over every amount above the
reserve, but at amount 2^64 - 1 (accepted by create_escrow) the payable
base times 70 overflows u64, so `settle_user` computes no payout at all:
it fails with MathOverflow even though the record is fresh, in the window
and called with the stored user. -/
theorem settlement_split_overflow_cex :
    RENT_RESERVE < 18446744073709551615 ∧
    user_amount 18446744073709551615 = .error .MathOverflow ∧
    settle_user hugeEscrow 18446744073709551615 2 0 0 = .error .MathOverflow := by
  refine ⟨by norm_num [RENT_RESERVE], by decide, by decide⟩

/-- C1 (amended): for every amount A above the reserve whose payable base
times 70 stays below 2^64, the payout computed by settle_user is
floor(base * 70 / 100), the payout computed by settle_publisher is
floor(base * 25 / 100), the payout computed by settle_platform is the
base minus the other two shares, and the three payouts sum exactly to
A - reserve. -/
theorem settlement_split_exact (A : Nat) (h1 : RENT_RESERVE < A)
    (h2 : (A - RENT_RESERVE) * USER_PERCENTAGE < U64_LIMIT) :
    user_amount A = .ok (user_share A) ∧
    publisher_amount A = .ok (publisher_share A) ∧
    platform_amount A = .ok (platform_share A) ∧
    user_share A = (A - RENT_RESERVE) * 70 / 100 ∧
    publisher_share A = (A - RENT_RESERVE) * 25 / 100 ∧
    platform_share A = (A - RENT_RESERVE) - user_share A - publisher_share A ∧
    user_share A + publisher_share A + platform_share A = A - RENT_RESERVE := by
  have h25 : (A - RENT_RESERVE) * PUBLISHER_PERCENTAGE < U64_LIMIT := by
    have : (A - RENT_RESERVE) * PUBLISHER_PERCENTAGE ≤
        (A - RENT_RESERVE) * USER_PERCENTAGE :=
      Nat.mul_le_mul_left _ (by norm_num [PUBLISHER_PERCENTAGE, USER_PERCENTAGE])
    omega
  exact ⟨user_amount_eval A (by omega) h2, publisher_amount_eval A (by omega) h25,
    platform_amount_eval A (by omega) h2, rfl, rfl, rfl, shares_sum A⟩

/-- Witness for C1 at the specification scenario A = 10000:
shares 3500 / 1250 / 250 summing to 5000. -/
theorem settlement_split_exact_witness :
    RENT_RESERVE < 10000 ∧ ((10000 : Nat) - RENT_RESERVE) * USER_PERCENTAGE < U64_LIMIT ∧
    (user_amount 10000 = .ok (user_share 10000) ∧
     publisher_amount 10000 = .ok (publisher_share 10000) ∧
     platform_amount 10000 = .ok (platform_share 10000) ∧
     user_share 10000 = ((10000 : Nat) - RENT_RESERVE) * 70 / 100 ∧
     publisher_share 10000 = ((10000 : Nat) - RENT_RESERVE) * 25 / 100 ∧
     platform_share 10000 = ((10000 : Nat) - RENT_RESERVE) - user_share 10000 -
       publisher_share 10000 ∧
     user_share 10000 + publisher_share 10000 + platform_share 10000 =
       (10000 : Nat) - RENT_RESERVE) ∧
    user_share 10000 = 3500 ∧ publisher_share 10000 = 1250 ∧ platform_share 10000 = 250 :=
  ⟨by decide, by decide, settlement_split_exact 10000 (by decide) (by decide),
   by decide, by decide, by decide⟩

/-! ### C2: no sequence of operations extracts more than the locked amount -/

/-- C2: along every reachable sequence of successful operations on an
escrow created with amount A, the total settled payouts plus the total
refunded plus the retained reserve never exceed A. -/
theorem escrow_fund_safety (A : Nat) (e : Escrow) (bal paid ref : Nat)
    (h : Reach A e bal paid ref) : paid + ref + RENT_RESERVE ≤ A := by
  have hi := reach_invariant A e bal paid ref h
  omega

/-- Witness for C2: create with amount 10000, then settle the user share
(3500); the bound 3500 + 0 + 5000 ≤ 10000 follows from the theorem. -/
theorem escrow_fund_safety_witness :
    (0 : Nat) + 3500 + RENT_RESERVE ≤ 10000 :=
  escrow_fund_safety 10000 sampleUserResult.escrow sampleUserResult.escrow_lamports
    (0 + sampleUserResult.payee_lamports) 0
    (Reach.settledUser sampleEscrow 10000 0 0 2 0 sampleUserResult
      (Reach.created "offer-1" 1 2 3 0 sampleEscrow (by decide) (by decide))
      (by decide))

/-! ### C3: checked arithmetic and the unchecked transfer step -/

/-- C3 counterexample: the payout computation is checked, but the debit of
the escrow account and the credit of the payee in the transfer step are
not. On an input state whose escrow account holds 0 lamports (less than
the 3500-lamport user payout of a 10000-lamport escrow), `settle_user`
does not fail with MathOverflow: it succeeds, wrapping the escrow balance
around to 2^64 - 3500. -/
theorem unchecked_lamport_debit_cex :
    settle_user sampleEscrow 0 2 0 0 =
      .ok { escrow := { sampleEscrow with user_settled := true },
            escrow_lamports := 18446744073709548116, payee_lamports := 3500 } := by
  decide

/-- C3 (amended): every multiplication, subtraction and division in the
payout and refund computations is checked and fails the whole call with
MathOverflow (the record unchanged, since an erroring call returns no new
state); the lamport debit and credit of the transfer step in the three
settlement handlers are unchecked wrapping u64 operations. -/
theorem checked_math_fails_atomically :
    (∀ (e : Escrow) (bal key pbal : Nat) (now : Int), e.user_settled = false →
      now ≤ e.created_at + ESCROW_EXPIRY_DURATION → key = e.user →
      user_amount e.amount = .error .MathOverflow →
      settle_user e bal key pbal now = .error .MathOverflow) ∧
    (∀ (e : Escrow) (bal key pbal : Nat) (now : Int), e.publisher_settled = false →
      now ≤ e.created_at + ESCROW_EXPIRY_DURATION →
      publisher_amount e.amount = .error .MathOverflow →
      settle_publisher e bal key pbal now = .error .MathOverflow) ∧
    (∀ (e : Escrow) (bal key pbal : Nat) (now : Int), e.platform_settled = false →
      now ≤ e.created_at + ESCROW_EXPIRY_DURATION → key = e.platform →
      platform_amount e.amount = .error .MathOverflow →
      settle_platform e bal key pbal now = .error .MathOverflow) ∧
    (∀ (e : Escrow) (bal key abal : Nat) (now : Int),
      ¬ (e.user_settled = true ∧ e.publisher_settled = true ∧
        e.platform_settled = true) →
      now > e.created_at + ESCROW_EXPIRY_DURATION → key = e.advertiser →
      bal < RENT_RESERVE →
      refund_escrow e bal key abal now = .error .MathOverflow) := by
  refine ⟨?_, ?_, ?_, ?_⟩
  · exact fun e bal key pbal now h1 h2 h3 h4 =>
      settle_user_amount_err e bal key pbal now .MathOverflow h1 h2 h3 h4
  · exact fun e bal key pbal now h1 h2 h3 =>
      settle_publisher_amount_err e bal key pbal now .MathOverflow h1 h2 h3
  · exact fun e bal key pbal now h1 h2 h3 h4 =>
      settle_platform_amount_err e bal key pbal now .MathOverflow h1 h2 h3 h4
  · exact fun e bal key abal now h1 h2 h3 h4 =>
      refund_escrow_balance_err e bal key abal now h1 h2 h3 h4

/-- Witness for C3: at amount 2^64 - 1 all three settlement computations
overflow and fail with MathOverflow; a refund on a balance below the
reserve fails with MathOverflow. -/
theorem checked_math_fails_atomically_witness :
    settle_user hugeEscrow 0 2 0 0 = .error .MathOverflow ∧
    settle_publisher hugeEscrow 0 9 0 0 = .error .MathOverflow ∧
    settle_platform hugeEscrow 0 3 0 0 = .error .MathOverflow ∧
    refund_escrow partialEscrow 4999 1 0 1209601 = .error .MathOverflow :=
  ⟨checked_math_fails_atomically.1 hugeEscrow 0 2 0 0 rfl (by decide) rfl (by decide),
   checked_math_fails_atomically.2.1 hugeEscrow 0 9 0 0 rfl (by decide) (by decide),
   checked_math_fails_atomically.2.2.1 hugeEscrow 0 3 0 0 rfl (by decide) rfl (by decide),
   checked_math_fails_atomically.2.2.2 partialEscrow 4999 1 0 1209601 (by decide)
     (by decide) rfl (by decide)⟩

/-! ### C4: settlements are effective at most once -/

/-- C4 counterexample: the claim asserts that the first in-window call
with the correct identity on a fresh flag succeeds, for every record.
At amount 2^64 - 1 (accepted by create_escrow) the payout computation
overflows, so the first such call already fails with MathOverflow
instead of succeeding. -/
theorem settle_twice_first_call_overflow_cex :
    hugeEscrow.user_settled = false ∧
    (1 : Int) ≤ hugeEscrow.created_at + ESCROW_EXPIRY_DURATION ∧
    settle_user hugeEscrow 18446744073709551615 2 0 1 = .error .MathOverflow := by
  refine ⟨rfl, by decide, by decide⟩

/-- C4 (amended): for each settlement operation, a first call on a fresh
flag with valid window, correct identity and non-overflowing computation succeeds
and flips its flag to true; any second call on the resulting record fails
with AlreadySettled (so the balance changes only on the first call, an
erroring call returning no new state); and no settlement operation ever
resets a flag: each returned record keeps the other two flags unchanged
and has its own flag set. -/
theorem settle_twice_already_settled :
    (∀ (e : Escrow) (bal key pbal : Nat) (now : Int) (u : Nat),
      e.user_settled = false → now ≤ e.created_at + ESCROW_EXPIRY_DURATION →
      key = e.user → user_amount e.amount = .ok u →
      ∃ r, settle_user e bal key pbal now = .ok r ∧ r.escrow.user_settled = true ∧
        ∀ (bal2 key2 pbal2 : Nat) (now2 : Int),
          settle_user r.escrow bal2 key2 pbal2 now2 = .error .AlreadySettled) ∧
    (∀ (e : Escrow) (bal key pbal : Nat) (now : Int) (u : Nat),
      e.publisher_settled = false → now ≤ e.created_at + ESCROW_EXPIRY_DURATION →
      publisher_amount e.amount = .ok u →
      ∃ r, settle_publisher e bal key pbal now = .ok r ∧
        r.escrow.publisher_settled = true ∧
        ∀ (bal2 key2 pbal2 : Nat) (now2 : Int),
          settle_publisher r.escrow bal2 key2 pbal2 now2 = .error .AlreadySettled) ∧
    (∀ (e : Escrow) (bal key pbal : Nat) (now : Int) (u : Nat),
      e.platform_settled = false → now ≤ e.created_at + ESCROW_EXPIRY_DURATION →
      key = e.platform → platform_amount e.amount = .ok u →
      ∃ r, settle_platform e bal key pbal now = .ok r ∧
        r.escrow.platform_settled = true ∧
        ∀ (bal2 key2 pbal2 : Nat) (now2 : Int),
          settle_platform r.escrow bal2 key2 pbal2 now2 = .error .AlreadySettled) ∧
    (∀ (e : Escrow) (bal key pbal : Nat) (now : Int) (r : SettleResult),
      settle_user e bal key pbal now = .ok r →
      r.escrow.user_settled = true ∧
      r.escrow.publisher_settled = e.publisher_settled ∧
      r.escrow.platform_settled = e.platform_settled) ∧
    (∀ (e : Escrow) (bal key pbal : Nat) (now : Int) (r : SettleResult),
      settle_publisher e bal key pbal now = .ok r →
      r.escrow.publisher_settled = true ∧
      r.escrow.user_settled = e.user_settled ∧
      r.escrow.platform_settled = e.platform_settled) ∧
    (∀ (e : Escrow) (bal key pbal : Nat) (now : Int) (r : SettleResult),
      settle_platform e bal key pbal now = .ok r →
      r.escrow.platform_settled = true ∧
      r.escrow.user_settled = e.user_settled ∧
      r.escrow.publisher_settled = e.publisher_settled) := by
  refine ⟨?_, ?_, ?_, ?_, ?_, ?_⟩
  · intro e bal key pbal now u h1 h2 h3 h4
    refine ⟨_, settle_user_eval e bal key pbal now u h1 h2 h3 h4, rfl, ?_⟩
    intro bal2 key2 pbal2 now2
    simp [settle_user]
  · intro e bal key pbal now u h1 h2 h3
    refine ⟨_, settle_publisher_eval e bal key pbal now u h1 h2 h3, rfl, ?_⟩
    intro bal2 key2 pbal2 now2
    simp [settle_publisher]
  · intro e bal key pbal now u h1 h2 h3 h4
    refine ⟨_, settle_platform_eval e bal key pbal now u h1 h2 h3 h4, rfl, ?_⟩
    intro bal2 key2 pbal2 now2
    simp [settle_platform]
  · intro e bal key pbal now r h
    obtain ⟨_, _, _, amt, _, hres⟩ := settle_user_ok_inv e bal key pbal now r h
    subst hres
    exact ⟨rfl, rfl, rfl⟩
  · intro e bal key pbal now r h
    obtain ⟨_, _, amt, _, hres⟩ := settle_publisher_ok_inv e bal key pbal now r h
    subst hres
    exact ⟨rfl, rfl, rfl⟩
  · intro e bal key pbal now r h
    obtain ⟨_, _, _, amt, _, hres⟩ := settle_platform_ok_inv e bal key pbal now r h
    subst hres
    exact ⟨rfl, rfl, rfl⟩

/-- Witness for C4: settling the user share of the sample escrow succeeds
once and the second call fails with AlreadySettled. -/
theorem settle_twice_already_settled_witness :
    ∃ r, settle_user sampleEscrow 10000 2 0 0 = .ok r ∧
      r.escrow.user_settled = true ∧
      ∀ (bal2 key2 pbal2 : Nat) (now2 : Int),
        settle_user r.escrow bal2 key2 pbal2 now2 = .error .AlreadySettled :=
  settle_twice_already_settled.1 sampleEscrow 10000 2 0 0 3500 rfl (by decide) rfl
    (by decide)

/-! ### C5: the expiry boundary of the validity window -/

/-- C5: with the settlement flag still false, a settlement call strictly
after created_at + 14 days fails with EscrowExpired, and a call at or
before that instant never fails with EscrowExpired (the boundary instant
itself is not expired); the window constant is 14 days of seconds. -/
theorem settlement_expiry_boundary :
    (∀ (e : Escrow) (bal key pbal : Nat) (now : Int), e.user_settled = false →
      (now > e.created_at + ESCROW_EXPIRY_DURATION →
        settle_user e bal key pbal now = .error .EscrowExpired) ∧
      (now ≤ e.created_at + ESCROW_EXPIRY_DURATION →
        settle_user e bal key pbal now ≠ .error .EscrowExpired)) ∧
    (∀ (e : Escrow) (bal key pbal : Nat) (now : Int), e.publisher_settled = false →
      (now > e.created_at + ESCROW_EXPIRY_DURATION →
        settle_publisher e bal key pbal now = .error .EscrowExpired) ∧
      (now ≤ e.created_at + ESCROW_EXPIRY_DURATION →
        settle_publisher e bal key pbal now ≠ .error .EscrowExpired)) ∧
    (∀ (e : Escrow) (bal key pbal : Nat) (now : Int), e.platform_settled = false →
      (now > e.created_at + ESCROW_EXPIRY_DURATION →
        settle_platform e bal key pbal now = .error .EscrowExpired) ∧
      (now ≤ e.created_at + ESCROW_EXPIRY_DURATION →
        settle_platform e bal key pbal now ≠ .error .EscrowExpired)) ∧
    ESCROW_EXPIRY_DURATION = 14 * 24 * 60 * 60 := by
  refine ⟨?_, ?_, ?_, rfl⟩
  · intro e bal key pbal now hflag
    constructor
    · intro hgt
      have h2 : ¬ (now ≤ e.created_at + ESCROW_EXPIRY_DURATION) := by omega
      simp [settle_user, hflag, h2]
    · intro hle
      by_cases hk : key = e.user
      · rcases user_amount_cases e.amount with ⟨v, hv⟩ | hv
        · rw [settle_user_eval e bal key pbal now v hflag hle hk hv]
          simp
        · rw [settle_user_amount_err e bal key pbal now .MathOverflow hflag hle hk hv]
          simp
      · simp [settle_user, hflag, hle, hk]
  · intro e bal key pbal now hflag
    constructor
    · intro hgt
      have h2 : ¬ (now ≤ e.created_at + ESCROW_EXPIRY_DURATION) := by omega
      simp [settle_publisher, hflag, h2]
    · intro hle
      rcases publisher_amount_cases e.amount with ⟨v, hv⟩ | hv
      · rw [settle_publisher_eval e bal key pbal now v hflag hle hv]
        simp
      · rw [settle_publisher_amount_err e bal key pbal now .MathOverflow hflag hle hv]
        simp
  · intro e bal key pbal now hflag
    constructor
    · intro hgt
      have h2 : ¬ (now ≤ e.created_at + ESCROW_EXPIRY_DURATION) := by omega
      simp [settle_platform, hflag, h2]
    · intro hle
      by_cases hk : key = e.platform
      · rcases platform_amount_cases e.amount with ⟨v, hv⟩ | hv
        · rw [settle_platform_eval e bal key pbal now v hflag hle hk hv]
          simp
        · rw [settle_platform_amount_err e bal key pbal now .MathOverflow hflag hle hk hv]
          simp
      · simp [settle_platform, hflag, hle, hk]

/-- Witness for C5 at the boundary: at now = 1209600 (exactly 14 days
after creation at 0) settlement is not expired; one second later it fails
with EscrowExpired. -/
theorem settlement_expiry_boundary_witness :
    (settle_user sampleEscrow 10000 2 0 1209601 = .error .EscrowExpired) ∧
    (settle_user sampleEscrow 10000 2 0 1209600 ≠ .error .EscrowExpired) :=
  ⟨((settlement_expiry_boundary.1 sampleEscrow 10000 2 0 1209601 rfl).1 (by decide)),
   ((settlement_expiry_boundary.1 sampleEscrow 10000 2 0 1209600 rfl).2 (by decide))⟩

/-! ### C6: refund timing, payout and foreclosure -/

/-- C6 counterexample: on a fully settled record a refund call at or
before the window boundary does not fail with NotExpired as the claim
states: the AlreadySettled guard runs first, so the call fails with
AlreadySettled (here at now = 0, well inside the window). -/
theorem refund_fully_settled_before_expiry_cex :
    (0 : Int) ≤ settledEscrow.created_at + ESCROW_EXPIRY_DURATION ∧
    refund_escrow settledEscrow 10000 1 0 0 = .error .AlreadySettled ∧
    refund_escrow settledEscrow 10000 1 0 0 ≠ .error .NotExpired := by
  refine ⟨by decide, by decide, by decide⟩

/-- C6 (amended): when the record is not fully settled, a refund at or
before created_at + window fails with NotExpired; after the window, with
the caller equal to the stored advertiser and the account balance at least
the reserve (true of every reachable record), it succeeds and transfers
exactly the current balance minus the reserve (not the original amount);
when all three flags are true it fails with AlreadySettled regardless of
the time, since that guard runs first. -/
theorem refund_behavior :
    (∀ (e : Escrow) (bal key abal : Nat) (now : Int),
      ¬ (e.user_settled = true ∧ e.publisher_settled = true ∧
        e.platform_settled = true) →
      now ≤ e.created_at + ESCROW_EXPIRY_DURATION →
      refund_escrow e bal key abal now = .error .NotExpired) ∧
    (∀ (e : Escrow) (bal key abal : Nat) (now : Int),
      ¬ (e.user_settled = true ∧ e.publisher_settled = true ∧
        e.platform_settled = true) →
      now > e.created_at + ESCROW_EXPIRY_DURATION → key = e.advertiser →
      RENT_RESERVE ≤ bal →
      refund_escrow e bal key abal now =
        .ok { escrow := { e with user_settled := true, publisher_settled := true,
                                 platform_settled := true },
              escrow_lamports := RENT_RESERVE,
              payee_lamports := abal + (bal - RENT_RESERVE) }) ∧
    (∀ (e : Escrow) (bal key abal : Nat) (now : Int),
      e.user_settled = true → e.publisher_settled = true → e.platform_settled = true →
      refund_escrow e bal key abal now = .error .AlreadySettled) := by
  refine ⟨?_, ?_, ?_⟩
  · intro e bal key abal now hflag hle
    have hb := not_fully_settled_bool e hflag
    have hn : ¬ (now > e.created_at + ESCROW_EXPIRY_DURATION) := by omega
    simp [refund_escrow, hb, hn]
  · exact fun e bal key abal now h1 h2 h3 h4 =>
      refund_escrow_eval e bal key abal now h1 h2 h3 h4
  · intro e bal key abal now h1 h2 h3
    simp [refund_escrow, h1, h2, h3]

/-- Witness for C6: a partially settled 10000-lamport escrow with 6500
lamports left: refund at the boundary fails with NotExpired, one second
later it pays exactly 6500 - 5000 = 1500 to the advertiser, and a fully
settled record is refused with AlreadySettled. -/
theorem refund_behavior_witness :
    refund_escrow partialEscrow 6500 1 0 1209600 = .error .NotExpired ∧
    refund_escrow partialEscrow 6500 1 0 1209601 =
      .ok { escrow := { partialEscrow with user_settled := true,
                                           publisher_settled := true,
                                           platform_settled := true },
            escrow_lamports := RENT_RESERVE,
            payee_lamports := 0 + (6500 - RENT_RESERVE) } ∧
    refund_escrow settledEscrow 6500 1 0 1209601 = .error .AlreadySettled :=
  ⟨refund_behavior.1 partialEscrow 6500 1 0 1209600 (by decide) (by decide),
   refund_behavior.2.1 partialEscrow 6500 1 0 1209601 (by decide) (by decide) rfl
     (by decide),
   refund_behavior.2.2 settledEscrow 6500 1 0 1209601 rfl rfl rfl⟩

/-! ### C7: a successful refund closes the record -/

/-- C7: every successful refund - including one whose refund amount is
zero and one on a record with fewer than three settlements done - returns
a record with all three flags true, and on that record every settlement
call and every further refund call fails with AlreadySettled. -/
theorem refund_closes_record (e : Escrow) (bal key abal : Nat) (now : Int)
    (r : SettleResult) (h : refund_escrow e bal key abal now = .ok r) :
    r.escrow.user_settled = true ∧ r.escrow.publisher_settled = true ∧
    r.escrow.platform_settled = true ∧
    (∀ (bal2 key2 pbal2 : Nat) (now2 : Int),
      settle_user r.escrow bal2 key2 pbal2 now2 = .error .AlreadySettled) ∧
    (∀ (bal2 key2 pbal2 : Nat) (now2 : Int),
      settle_publisher r.escrow bal2 key2 pbal2 now2 = .error .AlreadySettled) ∧
    (∀ (bal2 key2 pbal2 : Nat) (now2 : Int),
      settle_platform r.escrow bal2 key2 pbal2 now2 = .error .AlreadySettled) ∧
    (∀ (bal2 key2 abal2 : Nat) (now2 : Int),
      refund_escrow r.escrow bal2 key2 abal2 now2 = .error .AlreadySettled) := by
  obtain ⟨hflag, htime, hkey, hb, hres⟩ := refund_escrow_ok_inv e bal key abal now r h
  subst hres
  refine ⟨rfl, rfl, rfl, ?_, ?_, ?_, ?_⟩
  · intro bal2 key2 pbal2 now2
    simp [settle_user]
  · intro bal2 key2 pbal2 now2
    simp [settle_publisher]
  · intro bal2 key2 pbal2 now2
    simp [settle_platform]
  · intro bal2 key2 abal2 now2
    simp [refund_escrow]

/-- Witness for C7: refunding a partially settled record whose balance is
exactly the reserve (refund amount zero) still closes it. -/
theorem refund_closes_record_witness :
    refundZeroResult.escrow.user_settled = true ∧
    refundZeroResult.escrow.publisher_settled = true ∧
    refundZeroResult.escrow.platform_settled = true ∧
    (∀ (bal2 key2 pbal2 : Nat) (now2 : Int),
      settle_user refundZeroResult.escrow bal2 key2 pbal2 now2 =
        .error .AlreadySettled) ∧
    (∀ (bal2 key2 pbal2 : Nat) (now2 : Int),
      settle_publisher refundZeroResult.escrow bal2 key2 pbal2 now2 =
        .error .AlreadySettled) ∧
    (∀ (bal2 key2 pbal2 : Nat) (now2 : Int),
      settle_platform refundZeroResult.escrow bal2 key2 pbal2 now2 =
        .error .AlreadySettled) ∧
    (∀ (bal2 key2 abal2 : Nat) (now2 : Int),
      refund_escrow refundZeroResult.escrow bal2 key2 abal2 now2 =
        .error .AlreadySettled) :=
  refund_closes_record partialEscrow 5000 1 0 1209601 refundZeroResult (by decide)

/-! ### C8: wrong identities are rejected without effect -/

/-- C8: with a fresh flag and within the window, settle_user and
settle_platform called with an identity different from the stored one
fail with Unauthorized; refund_escrow on a not fully settled record after
the window with a caller different from the stored advertiser fails with
Unauthorized. An erroring call returns no new state, so balance and flags
are unchanged. -/
theorem unauthorized_rejected :
    (∀ (e : Escrow) (bal key pbal : Nat) (now : Int), e.user_settled = false →
      now ≤ e.created_at + ESCROW_EXPIRY_DURATION → key ≠ e.user →
      settle_user e bal key pbal now = .error .Unauthorized) ∧
    (∀ (e : Escrow) (bal key pbal : Nat) (now : Int), e.platform_settled = false →
      now ≤ e.created_at + ESCROW_EXPIRY_DURATION → key ≠ e.platform →
      settle_platform e bal key pbal now = .error .Unauthorized) ∧
    (∀ (e : Escrow) (bal key abal : Nat) (now : Int),
      ¬ (e.user_settled = true ∧ e.publisher_settled = true ∧
        e.platform_settled = true) →
      now > e.created_at + ESCROW_EXPIRY_DURATION → key ≠ e.advertiser →
      refund_escrow e bal key abal now = .error .Unauthorized) := by
  refine ⟨?_, ?_, ?_⟩
  · intro e bal key pbal now hflag htime hkey
    simp [settle_user, hflag, htime, hkey]
  · intro e bal key pbal now hflag htime hkey
    simp [settle_platform, hflag, htime, hkey]
  · intro e bal key abal now hflag htime hkey
    have hb := not_fully_settled_bool e hflag
    simp [refund_escrow, hb, htime, hkey]

/-- Witness for C8: identity 99 differs from the stored user (2), platform
(3) and advertiser (1) of the sample records. -/
theorem unauthorized_rejected_witness :
    settle_user sampleEscrow 10000 99 0 0 = .error .Unauthorized ∧
    settle_platform sampleEscrow 10000 99 0 0 = .error .Unauthorized ∧
    refund_escrow partialEscrow 6500 99 0 1209601 = .error .Unauthorized :=
  ⟨unauthorized_rejected.1 sampleEscrow 10000 99 0 0 rfl (by decide) (by decide),
   unauthorized_rejected.2.1 sampleEscrow 10000 99 0 0 rfl (by decide) (by decide),
   unauthorized_rejected.2.2 partialEscrow 6500 99 0 1209601 (by decide) (by decide)
     (by decide)⟩

/-! ### C9: the publisher identity is never checked -/

/-- C9 counterexample: the claim asserts that every in-window call with a
fresh publisher flag succeeds, but at amount 2^64 - 1 the publisher share
computation overflows and the call fails with MathOverflow, so success
additionally needs the share computation not to overflow. -/
theorem settle_publisher_overflow_cex :
    hugeEscrow.publisher_settled = false ∧
    (0 : Int) ≤ hugeEscrow.created_at + ESCROW_EXPIRY_DURATION ∧
    settle_publisher hugeEscrow 18446744073709551615 7 0 0 =
      .error .MathOverflow := by
  refine ⟨rfl, by decide, by decide⟩

/-- C9 (amended): settle_publisher performs no identity check: whenever
the publisher flag is false, the call is within the window and the
publisher share computation does not overflow, the call succeeds and
credits the share to whatever identity the caller supplied; and
settle_publisher never fails with Unauthorized, for any input. -/
theorem publisher_identity_unchecked :
    (∀ (e : Escrow) (bal key pbal : Nat) (now : Int) (v : Nat),
      e.publisher_settled = false →
      now ≤ e.created_at + ESCROW_EXPIRY_DURATION →
      publisher_amount e.amount = .ok v →
      settle_publisher e bal key pbal now =
        .ok { escrow := { e with publisher_settled := true },
              escrow_lamports := wrapping_sub bal v,
              payee_lamports := wrapping_add pbal v }) ∧
    (∀ (e : Escrow) (bal key pbal : Nat) (now : Int),
      settle_publisher e bal key pbal now ≠ .error .Unauthorized) := by
  constructor
  · exact fun e bal key pbal now v h1 h2 h3 =>
      settle_publisher_eval e bal key pbal now v h1 h2 h3
  · intro e bal key pbal now
    unfold settle_publisher
    split
    · simp
    · split
      · simp
      · rcases publisher_amount_cases e.amount with ⟨v, hv⟩ | hv <;> rw [hv] <;> simp

/-- Witness for C9: two different caller-chosen identities (7 and 8) are
both paid the 1250-lamport publisher share of the sample escrow, and no
Unauthorized failure is possible. -/
theorem publisher_identity_unchecked_witness :
    settle_publisher sampleEscrow 10000 7 0 0 =
      .ok { escrow := { sampleEscrow with publisher_settled := true },
            escrow_lamports := wrapping_sub 10000 1250,
            payee_lamports := wrapping_add 0 1250 } ∧
    settle_publisher sampleEscrow 10000 8 0 0 =
      .ok { escrow := { sampleEscrow with publisher_settled := true },
            escrow_lamports := wrapping_sub 10000 1250,
            payee_lamports := wrapping_add 0 1250 } ∧
    settle_publisher sampleEscrow 10000 7 0 0 ≠ .error .Unauthorized :=
  ⟨publisher_identity_unchecked.1 sampleEscrow 10000 7 0 0 1250 rfl (by decide)
     (by decide),
   publisher_identity_unchecked.1 sampleEscrow 10000 8 0 0 1250 rfl (by decide)
     (by decide),
   publisher_identity_unchecked.2 sampleEscrow 10000 7 0 0⟩

/-! ### C10: behaviour of escrows whose shares overflow u64 -/

/-- C10 counterexample: the claim says every settlement on such an escrow
fails with MathOverflow, but for amount 300000000000005000 the base times
70 overflows u64 while the base times 25 does not, so settle_publisher
still succeeds and pays the 25 percent share. -/
theorem overflow_publisher_still_settles_cex :
    (midEscrow.amount - RENT_RESERVE) * USER_PERCENTAGE ≥ U64_LIMIT ∧
    settle_user midEscrow 300000000000005000 2 0 0 = .error .MathOverflow ∧
    settle_publisher midEscrow 300000000000005000 7 0 0 =
      .ok { escrow := { midEscrow with publisher_settled := true },
            escrow_lamports := 225000000000005000,
            payee_lamports := 75000000000000000 } := by
  refine ⟨by decide, by decide, by decide⟩

/-- C10 (amended): create_escrow accepts any u64 amount above the reserve
with no upper bound; on a created escrow whose base times 70 reaches 2^64,
settle_user and settle_platform always fail with MathOverflow inside the
window (so the 70 and 5 percent shares can only leave via refund after
expiry), while settle_publisher fails with MathOverflow exactly when the
base times 25 also reaches 2^64; and refund after expiry succeeds on any
such not fully settled record with balance at least the reserve. -/
theorem overflow_settlement_lockout :
    (∀ (offer_id : String) (A : Nat) (adv usr plat : Pubkey) (now : Int),
      RENT_RESERVE < A → A < U64_LIMIT → offer_id.utf8ByteSize ≤ 64 →
      create_escrow offer_id A adv usr plat now =
        .ok { offer_id := offer_id, advertiser := adv, user := usr, platform := plat,
              amount := A, created_at := now, user_settled := false,
              publisher_settled := false, platform_settled := false }) ∧
    (∀ (e : Escrow) (bal key pbal : Nat) (now : Int),
      RENT_RESERVE ≤ e.amount →
      (e.amount - RENT_RESERVE) * USER_PERCENTAGE ≥ U64_LIMIT →
      e.user_settled = false → now ≤ e.created_at + ESCROW_EXPIRY_DURATION →
      key = e.user →
      settle_user e bal key pbal now = .error .MathOverflow) ∧
    (∀ (e : Escrow) (bal key pbal : Nat) (now : Int),
      RENT_RESERVE ≤ e.amount →
      (e.amount - RENT_RESERVE) * USER_PERCENTAGE ≥ U64_LIMIT →
      e.platform_settled = false → now ≤ e.created_at + ESCROW_EXPIRY_DURATION →
      key = e.platform →
      settle_platform e bal key pbal now = .error .MathOverflow) ∧
    (∀ (e : Escrow) (bal key pbal : Nat) (now : Int),
      RENT_RESERVE ≤ e.amount →
      (e.amount - RENT_RESERVE) * PUBLISHER_PERCENTAGE ≥ U64_LIMIT →
      e.publisher_settled = false → now ≤ e.created_at + ESCROW_EXPIRY_DURATION →
      settle_publisher e bal key pbal now = .error .MathOverflow) ∧
    (∀ (e : Escrow) (bal key abal : Nat) (now : Int),
      ¬ (e.user_settled = true ∧ e.publisher_settled = true ∧
        e.platform_settled = true) →
      now > e.created_at + ESCROW_EXPIRY_DURATION → key = e.advertiser →
      RENT_RESERVE ≤ bal →
      ∃ r, refund_escrow e bal key abal now = .ok r) := by
  refine ⟨?_, ?_, ?_, ?_, ?_⟩
  · intro offer_id A adv usr plat now h1 h2 h3
    unfold create_escrow
    rw [if_neg (by omega), if_neg (by omega)]
  · intro e bal key pbal now hA hov hflag htime hkey
    exact settle_user_amount_err e bal key pbal now .MathOverflow hflag htime hkey
      (user_amount_overflow e.amount hA (by omega))
  · intro e bal key pbal now hA hov hflag htime hkey
    exact settle_platform_amount_err e bal key pbal now .MathOverflow hflag htime hkey
      (platform_amount_overflow e.amount hA (by omega))
  · intro e bal key pbal now hA hov hflag htime
    exact settle_publisher_amount_err e bal key pbal now .MathOverflow hflag htime
      (publisher_amount_overflow e.amount hA (by omega))
  · intro e bal key abal now h1 h2 h3 h4
    exact ⟨_, refund_escrow_eval e bal key abal now h1 h2 h3 h4⟩

/-- Witness for C10: the u64-maximal escrow is accepted at creation; all
three settlements fail with MathOverflow on it; and after expiry the
advertiser can refund it. -/
theorem overflow_settlement_lockout_witness :
    create_escrow "offer-2" 18446744073709551615 1 2 3 0 = .ok hugeEscrow ∧
    settle_user hugeEscrow 18446744073709551615 2 0 5 = .error .MathOverflow ∧
    settle_platform hugeEscrow 18446744073709551615 3 0 5 = .error .MathOverflow ∧
    settle_publisher hugeEscrow 18446744073709551615 7 0 5 = .error .MathOverflow ∧
    (∃ r, refund_escrow hugeEscrow 18446744073709551615 1 0 1209601 = .ok r) :=
  ⟨overflow_settlement_lockout.1 "offer-2" 18446744073709551615 1 2 3 0 (by decide)
     (by decide) (by decide),
   overflow_settlement_lockout.2.1 hugeEscrow 18446744073709551615 2 0 5 (by decide)
     (by decide) rfl (by decide) rfl,
   overflow_settlement_lockout.2.2.1 hugeEscrow 18446744073709551615 3 0 5 (by decide)
     (by decide) rfl (by decide) rfl,
   overflow_settlement_lockout.2.2.2.1 hugeEscrow 18446744073709551615 7 0 5 (by decide)
     (by decide) rfl (by decide),
   overflow_settlement_lockout.2.2.2.2 hugeEscrow 18446744073709551615 1 0 1209601
     (by decide) (by decide) rfl (by decide)⟩

end Payattn
